import Mathlib

/-!
Verification development for the bit-converter-ponto repository.

Shallow embedding of the core of `src/app/parser.py` (AFDParser) and
`src/app/calculator.py` (WorkCalculator), with the data model of
`src/app/models.py`.

Modelling conventions:
* Python `float` hour and minute quantities are modelled as `ℚ` (all the
  arithmetic the claims touch is exact decimal arithmetic on small values).
* Python `int` is modelled as `ℤ` where values may be negative (parsed
  fields), `ℕ` where the source guarantees nonnegativity (calendar fields).
* Python `datetime` values carry minute precision here, exactly the
  precision the parser constructs (`datetime(year, month, day, hour, minute)`
  has zero seconds).  Differences `(b - a).total_seconds() / 60` are the
  difference of minute indices.
* Python strings handled by the parser are modelled as `List Char`; strings
  only produced for human consumption (observations, error log entries,
  detected-format tags) are Lean `String`s.  Python float formatting inside
  f-strings is abstracted by `toString` on `ℚ`.
-/

attribute [local semireducible] Rat.add Rat.sub Rat.mul Rat.inv

/-- Calendar date (`datetime.date`). -/
structure PDate where
  year : Nat
  month : Nat
  day : Nat
deriving DecidableEq

/-- Time of day (`datetime.time`) at minute precision. -/
structure PTime where
  hour : Nat
  minute : Nat
deriving DecidableEq

/-- Timestamp (`datetime.datetime`) at minute precision. -/
structure PDateTime where
  year : Nat
  month : Nat
  day : Nat
  hour : Nat
  minute : Nat
deriving DecidableEq

/-- Gregorian leap-year rule, as used by Python's `calendar`/`datetime`. -/
def is_leap_year (y : Nat) : Bool :=
  (y % 4 == 0 && y % 100 != 0) || (y % 400 == 0)

/-- Number of days of a month: `calendar.monthrange(year, month)[1]`
(also the rule `datetime.date` validates its `day` argument against). -/
def monthLength (y m : Nat) : Nat :=
  if m = 2 then (if is_leap_year y then 29 else 28)
  else if m = 4 ∨ m = 6 ∨ m = 9 ∨ m = 11 then 30
  else 31

/-- Days contributed by the months strictly before month `m` of year `y`. -/
def daysBeforeMonth (y m : Nat) : Nat :=
  (List.range (m - 1)).foldl (fun acc i => acc + monthLength y (i + 1)) 0

/-- Proleptic-Gregorian day number (rata die): 0001-01-01 is day 1.
This is `date.toordinal()` in Python. -/
def rataDie (d : PDate) : Nat :=
  let y := d.year - 1
  365 * y + y / 4 - y / 100 + y / 400 + daysBeforeMonth d.year d.month + d.day

/-- `date.weekday()`: 0 = Monday .. 6 = Sunday. -/
def date_weekday (d : PDate) : Nat :=
  (rataDie d + 6) % 7

/-- Minute index of a timestamp, used for ordering punches and for
`(b - a).total_seconds() / 60` differences (seconds are always zero). -/
def dt_minutes (dt : PDateTime) : Int :=
  1440 * (rataDie ⟨dt.year, dt.month, dt.day⟩ : Int) + 60 * dt.hour + dt.minute

/-- `models.Punch`: one punch-clock event. -/
structure Punch where
  datetime : PDateTime
  nsr : List Char := []
  pis : List Char := []
deriving DecidableEq

/-- `Punch.date` property. -/
def punch_date (p : Punch) : PDate :=
  ⟨p.datetime.year, p.datetime.month, p.datetime.day⟩

/-- `Punch.time` property. -/
def punch_time (p : Punch) : PTime :=
  ⟨p.datetime.hour, p.datetime.minute⟩

/-- `models.ScheduleType`: the seven supported CLT schedule variants. -/
inductive ScheduleType where
  | standard
  | fiveByTwo
  | sixByOne
  | twelveByThirtySix
  | partTime30
  | partTime26
  | custom
deriving DecidableEq

/-- `models.ScheduleConfig`: work-schedule policy. -/
structure ScheduleConfig where
  schedule_type : ScheduleType := ScheduleType.sixByOne
  entry_time : PTime := ⟨8, 0⟩
  exit_time : PTime := ⟨18, 0⟩
  break_start : PTime := ⟨13, 0⟩
  break_end : PTime := ⟨15, 0⟩
  break_duration_minutes : Int := 120
  tolerance_minutes : Int := 10
  weekly_hours : ℚ := 44
  daily_hours : ℚ := 8
  saturday_hours : ℚ := 4
  saturday_entry : PTime := ⟨8, 0⟩
  saturday_exit : PTime := ⟨12, 0⟩
  overtime_premium : ℚ := 1/2
  max_daily_overtime_hours : ℚ := 2
  workdays : List Nat := [0, 1, 2, 3, 4, 5]
deriving DecidableEq

/-- `ScheduleConfig()` with all dataclass defaults. -/
def default_schedule : ScheduleConfig := {}

/-- `models.WorkDay`: the per-day summary produced by the calculator. -/
structure WorkDay where
  date : PDate
  punches : List Punch := []
  worked_hours : ℚ := 0
  expected_hours : ℚ := 0
  overtime_hours : ℚ := 0
  deficit_hours : ℚ := 0
  break_minutes : ℚ := 0
  is_late : Bool := false
  late_minutes : ℚ := 0
  is_absent : Bool := false
  is_incomplete : Bool := false
  is_workday : Bool := true
  is_holiday : Bool := false
  observation : String := ""
deriving DecidableEq

/-- `models.Employee`. -/
structure Employee where
  pis : List Char := []
  name : List Char := []
  employee_id : List Char := []
  cargo : List Char := []
  department : List Char := []
  schedule : Option ScheduleConfig := none
  workdays : List WorkDay := []
deriving DecidableEq

/-- `models.Company` (default_schedule field omitted: never read by the core). -/
structure Company where
  name : List Char := []
  cnpj : List Char := []
  address : List Char := []
  city : List Char := []
  state : List Char := []
  phone : List Char := []
  logo_path : List Char := []
deriving DecidableEq

/-- `WorkCalculator._is_workday`.  The trailing
`return weekday in schedule.workdays` of the source is unreachable
(the `if`/`elif` chain covers every enum member). -/
def is_workday (weekday : Nat) (schedule : ScheduleConfig) : Bool :=
  match schedule.schedule_type with
  | ScheduleType.standard => weekday ≤ 5
  | ScheduleType.fiveByTwo => schedule.workdays.contains weekday
  | ScheduleType.sixByOne => weekday ≤ 5
  | ScheduleType.twelveByThirtySix => true
  | ScheduleType.partTime30 => schedule.workdays.contains weekday
  | ScheduleType.partTime26 => schedule.workdays.contains weekday
  | ScheduleType.custom => schedule.workdays.contains weekday

/-- `WorkCalculator._expected_hours`.  As in `_is_workday`, the trailing
fallback of the source is unreachable.  Python's
`schedule.daily_hours if schedule.daily_hours else 8.0` tests float
truthiness, i.e. `daily_hours != 0`. -/
def expected_hours (weekday : Nat) (schedule : ScheduleConfig) : ℚ :=
  match schedule.schedule_type with
  | ScheduleType.standard =>
      if weekday ≤ 4 then (if schedule.daily_hours ≠ 0 then schedule.daily_hours else 8)
      else if weekday = 5 then schedule.saturday_hours
      else 0
  | ScheduleType.fiveByTwo =>
      if schedule.workdays.contains weekday then schedule.daily_hours else 0
  | ScheduleType.sixByOne =>
      if weekday ≤ 4 then (if schedule.daily_hours ≠ 0 then schedule.daily_hours else 8)
      else if weekday = 5 then schedule.saturday_hours
      else 0
  | ScheduleType.twelveByThirtySix => 12
  | ScheduleType.partTime30 =>
      if schedule.workdays.contains weekday then schedule.daily_hours else 0
  | ScheduleType.partTime26 =>
      if schedule.workdays.contains weekday then schedule.daily_hours else 0
  | ScheduleType.custom =>
      if schedule.workdays.contains weekday then schedule.daily_hours else 0

/-- `WorkCalculator._time_diff_minutes` (positive = late). -/
def time_diff_minutes (expected actual : PTime) : ℚ :=
  (((actual.hour * 60 + actual.minute : Int) - (expected.hour * 60 + expected.minute : Int) : Int) : ℚ)

/-- Python `max(a, b)` on two exact numbers (returns the first argument on
ties, and is kernel-computable on `ℚ`, unlike the order-theoretic `max`). -/
def pymax (a b : ℚ) : ℚ := if a < b then b else a

/-- Python `min(a, b)` (returns the first argument on ties). -/
def pymin (a b : ℚ) : ℚ := if b < a then b else a

/-- The pairing loop of `_calc_worked_hours`:
`for i in range(0, len(punches) - 1, 2)` sums the positive
entry→exit differences, in minutes. -/
def pair_minutes : List Punch → ℚ
  | entry :: exit_p :: restp =>
      let diff : ℚ := ((dt_minutes exit_p.datetime - dt_minutes entry.datetime : Int) : ℚ)
      (if diff > 0 then diff else 0) + pair_minutes restp
  | _ => 0

/-- `WorkCalculator._calc_worked_hours` (its `schedule` parameter is unused
in the source as well). -/
def calc_worked_hours (punches : List Punch) (schedule : ScheduleConfig) : ℚ :=
  if punches.length < 2 then 0
  else pymax 0 (pair_minutes punches / 60)

/-- `WorkCalculator._calc_break_minutes`: gap between the 2nd and 3rd punch
whenever at least 4 punches exist, clamped at 0; otherwise 0. -/
def calc_break_minutes (punches : List Punch) : ℚ :=
  match punches with
  | _ :: exit_break :: return_break :: _ :: _ =>
      let diff : ℚ := ((dt_minutes return_break.datetime - dt_minutes exit_break.datetime : Int) : ℚ)
      pymax 0 diff
  | _ => 0

/-- Observation literal `"Sem marcações"`. -/
def obs_no_punches : String := "Sem marcações"

/-- Observation literal for a single punch. -/
def obs_single : String := "Marcação incompleta (1 batida — falta entrada ou saída)"

/-- Observation for an odd punch count (`f"Marcação ímpar (…)"`). -/
def obs_odd (n : Nat) : String :=
  "Marcação ímpar (" ++ toString n ++ " batidas — falta 1 registro)"

/-- Observation literal for a continuous shift. -/
def obs_continuous : String := "Jornada contínua (sem intervalo registrado)"

/-- Observation literal for work on a rest day. -/
def obs_rest_day_work : String := "Trabalho em dia de folga"

/-- Observation for exceeding the daily overtime cap
(`f"Excedeu limite de …h extras"`; float rendering abstracted). -/
def obs_excess (schedule : ScheduleConfig) : String :=
  "Excedeu limite de " ++ toString schedule.max_daily_overtime_hours ++ "h extras"

/-- Observation for an insufficient break (`.0f` rendering abstracted). -/
def obs_insufficient (bm : ℚ) : String :=
  "Intervalo insuficiente: " ++ toString bm ++ "min (mínimo 60min)"

/-- `WorkCalculator._calculate_workday`: the per-day rule engine, translated
branch by branch from the source. -/
def calculate_workday (current_date : PDate) (punches : List Punch)
    (schedule : ScheduleConfig) : WorkDay :=
  let weekday := date_weekday current_date
  let isw := is_workday weekday schedule
  let expected := expected_hours weekday schedule
  let workday : WorkDay :=
    { date := current_date, punches := punches, is_workday := isw, expected_hours := expected }
  match punches with
  | [] =>
    -- "Sem marcações"
    if isw then
      { workday with is_absent := true, deficit_hours := expected, observation := obs_no_punches }
    else workday
  | first :: _rest =>
    let num_punches := punches.length
    if num_punches = 1 then
      let wd1 := { workday with
        worked_hours := 0,
        deficit_hours := if isw then expected else 0,
        observation := obs_single,
        is_incomplete := true }
      if isw then { wd1 with is_absent := true } else wd1
    else
      let workday :=
        if num_punches % 2 ≠ 0 then
          { workday with observation := obs_odd num_punches, is_incomplete := true }
        else workday
      let workday :=
        if num_punches = 2 ∧ isw = true ∧ expected > 6 then
          { workday with observation := obs_continuous }
        else workday
      if isw = false then
        -- work on a rest day: everything is overtime
        let worked := calc_worked_hours punches schedule
        let workday := { workday with worked_hours := worked, overtime_hours := worked }
        if workday.observation = "" then { workday with observation := obs_rest_day_work }
        else workday
      else
        let worked := calc_worked_hours punches schedule
        let workday := { workday with worked_hours := worked }
        let entry_time := punch_time first
        let expected_entry :=
          if schedule.schedule_type = ScheduleType.standard ∧ weekday = 5 then
            schedule.saturday_entry
          else schedule.entry_time
        let late_minutes := time_diff_minutes expected_entry entry_time
        let workday :=
          if late_minutes > (schedule.tolerance_minutes : ℚ) then
            { workday with is_late := true, late_minutes := late_minutes }
          else workday
        let workday :=
          if worked > expected + (schedule.tolerance_minutes : ℚ) / 60 then
            let overtime := worked - expected
            let wd2 := { workday with
              overtime_hours := pymin overtime schedule.max_daily_overtime_hours }
            if overtime > schedule.max_daily_overtime_hours then
              { wd2 with observation := obs_excess schedule }
            else wd2
          else if worked < expected - (schedule.tolerance_minutes : ℚ) / 60 then
            { workday with deficit_hours := expected - worked }
          else workday
        let workday : WorkDay := { workday with break_minutes := calc_break_minutes punches }
        if expected > 6 ∧ workday.break_minutes < 60 then
          if workday.break_minutes > 0 then
            { workday with observation := obs_insufficient workday.break_minutes }
          else workday
        else workday

/-- Stable insertion of a punch into a datetime-sorted list (a punch with an
equal key goes after the existing ones, matching Python's stable sort). -/
def insert_punch (p : Punch) : List Punch → List Punch
  | [] => [p]
  | q :: restq =>
      if dt_minutes q.datetime ≤ dt_minutes p.datetime then q :: insert_punch p restq
      else p :: q :: restq

/-- Stable sort of punches by datetime (`list.sort(key=lambda p: p.datetime)`). -/
def sort_punches : List Punch → List Punch
  | [] => []
  | p :: restp => insert_punch p (sort_punches restp)

/-- `WorkCalculator.process_employee`.  The source groups the month's punches
into a dict keyed by `punch.date` (preserving encounter order) and sorts each
day's list by datetime; looking a date of the target month up in that dict is
the same as filtering the month's punches by that date and stable-sorting. -/
def process_employee (calc_default : ScheduleConfig) (employee : Employee)
    (punches : List Punch) (month year : Nat) : Employee :=
  let schedule := employee.schedule.getD calc_default
  let month_punches :=
    punches.filter (fun p => p.datetime.month = month ∧ p.datetime.year = year)
  let by_day : PDate → List Punch := fun d =>
    sort_punches (month_punches.filter (fun p => punch_date p = d))
  let days_in_month := monthLength year month
  let new_workdays := (List.range days_in_month).map (fun i =>
    let current_date : PDate := ⟨year, month, i + 1⟩
    calculate_workday current_date (by_day current_date) schedule)
  { employee with workdays := new_workdays }

/-! ### Parser embedding (`src/app/parser.py`) -/

/-- Python `str.isspace` membership for the ASCII whitespace the files can
contain (`str.strip()` with no argument strips these). -/
def isSpacePy (c : Char) : Bool :=
  c = ' ' ∨ c = '\t' ∨ c = '\n' ∨ c = '\r' ∨ c = '\x0b' ∨ c = '\x0c'

/-- Python `str.strip()`. -/
def stripL (s : List Char) : List Char :=
  ((s.dropWhile isSpacePy).reverse.dropWhile isSpacePy).reverse

/-- Python slice `s[a:b]` (for `0 ≤ a ≤ b`). -/
def sliceL (s : List Char) (a b : Nat) : List Char :=
  (s.drop a).take (b - a)

/-- Python `str.upper()` (ASCII case map; the substrings searched for are
ASCII). -/
def upperL (s : List Char) : List Char :=
  s.map Char.toUpper

/-- Python `str.startswith`. -/
def starts_with_l : List Char → List Char → Bool
  | _, [] => true
  | [], _ :: _ => false
  | a :: as_, b :: bs => a = b && starts_with_l as_ bs

/-- Python substring test `needle in hay`. -/
def contains_sub : List Char → List Char → Bool
  | [], needle => needle.isEmpty
  | h :: t, needle => starts_with_l (h :: t) needle || contains_sub t needle

/-- Value of a nonempty all-digit string; `none` otherwise. -/
def digits_val : List Char → Option Nat
  | [] => none
  | [c] => if c.isDigit then some (c.toNat - '0'.toNat) else none
  | c :: restd =>
      if c.isDigit then
        match digits_val restd with
        | some v => some ((c.toNat - '0'.toNat) * 10 ^ restd.length + v)
        | none => none
      else none

/-- Python `int(s)`: strip whitespace, optional sign, digits; `none` models
`ValueError`.  (Underscore digit separators are not modelled: the fields
decoded here are fixed-width numerics.) -/
def toIntPy (s : List Char) : Option Int :=
  match stripL s with
  | '+' :: restd => (digits_val restd).map (fun n => (n : Int))
  | '-' :: restd => (digits_val restd).map (fun n => -(n : Int))
  | restd => (digits_val restd).map (fun n => (n : Int))

/-- Python `str.isdigit()` (nonempty and all digits). -/
def isdigit_l (s : List Char) : Bool :=
  ¬ s.isEmpty && s.all Char.isDigit

/-- `AFDParser.ISO_DT_PATTERN.match`: does the string begin with
`YYYY-MM-DDThh:mm:ss±hhmm` (24 characters)? -/
def iso_match : List Char → Bool
  | y1 :: y2 :: y3 :: y4 :: s1 :: m1 :: m2 :: s2 :: d1 :: d2 :: t :: h1 :: h2 :: c1 :: mi1 :: mi2 :: c2 :: se1 :: se2 :: sg :: z1 :: z2 :: z3 :: z4 :: _ =>
      y1.isDigit && y2.isDigit && y3.isDigit && y4.isDigit && s1 = '-' &&
      m1.isDigit && m2.isDigit && s2 = '-' && d1.isDigit && d2.isDigit &&
      t = 'T' && h1.isDigit && h2.isDigit && c1 = ':' && mi1.isDigit &&
      mi2.isDigit && c2 = ':' && se1.isDigit && se2.isDigit &&
      (sg = '+' || sg = '-') && z1.isDigit && z2.isDigit && z3.isDigit && z4.isDigit
  | _ => false

/-- The mutable state of an `AFDParser` instance (every attribute set in
`__init__`). -/
structure ParserState where
  punches : List Punch := []
  employees : List (List Char × Employee) := []
  company : Company := {}
  errors : List String := []
  total_lines : Nat := 0
  parsed_lines : Nat := 0
  format_detected : String := "unknown"
deriving DecidableEq

/-- A freshly constructed `AFDParser()` (also the state after the resets at
the top of `parse_file`). -/
def init_state : ParserState := {}

/-- Error-log entry appended by `_parse_punch`'s `except` clause
(`f"Registro tipo 3 (NSR …): …"`; the Python exception text is abstracted). -/
def punch_error_msg (nsr : List Char) : String :=
  "Registro tipo 3 (NSR " ++ String.mk nsr ++ "): ValueError"

/-- The tail of `_parse_punch` shared by both layout branches: the empty-PIS
check, the range validations, the `datetime(...)` construction (whose only
remaining failure mode, the day exceeding the month's length, raises a
`ValueError` caught by the handler that logs an error), and the state
update. -/
def punch_validate (st : ParserState) (nsr : List Char)
    (year month day hour minute : Int) (pis : List Char) : ParserState :=
  if pis = [] then st
  else if ¬ (1 ≤ day ∧ day ≤ 31 ∧ 1 ≤ month ∧ month ≤ 12 ∧ 2000 ≤ year ∧ year ≤ 2100) then st
  else if ¬ (0 ≤ hour ∧ hour ≤ 23 ∧ 0 ≤ minute ∧ minute ≤ 59) then st
  else if (monthLength year.toNat month.toNat : Int) < day then
    { st with errors := st.errors ++ [punch_error_msg nsr] }
  else
    let punch : Punch :=
      { datetime := ⟨year.toNat, month.toNat, day.toNat, hour.toNat, minute.toNat⟩,
        nsr := nsr, pis := pis }
    let st := { st with punches := st.punches ++ [punch] }
    if (st.employees.lookup pis).isNone then
      { st with employees := st.employees ++ [(pis, { pis := pis })] }
    else st

/-- `AFDParser._parse_punch`. -/
def parse_punch (st : ParserState) (line : List Char) (nsr : List Char) : ParserState :=
  if st.format_detected = "controlid_iso" then
    let dt_str := sliceL line 10 35
    if iso_match dt_str then
      -- the regex groups are all-digit, so these conversions cannot fail
      match toIntPy (sliceL dt_str 0 4), toIntPy (sliceL dt_str 5 7),
            toIntPy (sliceL dt_str 8 10), toIntPy (sliceL dt_str 11 13),
            toIntPy (sliceL dt_str 14 16) with
      | some year, some month, some day, some hour, some minute =>
          punch_validate st nsr year month day hour minute (stripL (sliceL line 35 47))
      | _, _, _, _, _ => { st with errors := st.errors ++ [punch_error_msg nsr] }
    else st
  else
    let date_str := sliceL line 10 18
    let time_str := sliceL line 18 22
    let pis := stripL (sliceL line 22 34)
    match toIntPy (sliceL date_str 0 2), toIntPy (sliceL date_str 2 4),
          toIntPy (sliceL date_str 4 8), toIntPy (sliceL time_str 0 2),
          toIntPy (sliceL time_str 2 4) with
    | some day, some month, some year, some hour, some minute =>
        punch_validate st nsr year month day hour minute pis
    | _, _, _, _, _ => { st with errors := st.errors ++ [punch_error_msg nsr] }

/-- Update the name of the employee keyed by `pis`. -/
def set_employee_name (employees : List (List Char × Employee)) (pis name : List Char) :
    List (List Char × Employee) :=
  employees.map (fun kv => if kv.1 = pis then (kv.1, { kv.2 with name := name }) else kv)

/-- `AFDParser._parse_employee` (the extracted operation code is never used
by the source either). -/
def parse_employee (st : ParserState) (line : List Char) (_nsr : List Char) : ParserState :=
  let pis :=
    if st.format_detected = "controlid_iso" then stripL (sliceL line 36 48)
    else stripL (sliceL line 23 35)
  let name :=
    if st.format_detected = "controlid_iso" then
      if line.length > 48 then stripL (sliceL line 48 100) else []
    else
      if line.length > 35 then stripL (sliceL line 35 87) else []
  if pis ≠ [] then
    let st :=
      if (st.employees.lookup pis).isNone then
        { st with employees := st.employees ++ [(pis, { pis := pis })] }
      else st
    if name ≠ [] then { st with employees := set_employee_name st.employees pis name }
    else st
  else st

/-- Character class `[A-ZÀ-Ú]` of the header-name fallback regex. -/
def upper_class (c : Char) : Bool :=
  ('A' ≤ c ∧ c ≤ 'Z') ∨ ('À' ≤ c ∧ c ≤ 'Ú')

/-- Character class `[A-ZÀ-Ú\s\.\-\&]` of the header-name fallback regex. -/
def ext_class (c : Char) : Bool :=
  upper_class c || isSpacePy c || c = '.' || c = '-' || c = '&'

/-- `re.search(r'([A-ZÀ-Ú][A-ZÀ-Ú\s\.\-\&]{3,})', rest)`: leftmost position
whose character is in the first class and is followed by at least 3
characters of the second class; the greedy quantifier takes the maximal
run. -/
def header_name_search : List Char → Option (List Char)
  | [] => none
  | c :: restc =>
      if upper_class c then
        let run := restc.takeWhile ext_class
        if 3 ≤ run.length then some (c :: run) else header_name_search restc
      else header_name_search restc

/-- Reassembled CNPJ `"xx.xxx.xxx/xxxx-xx"` from 14 digit characters. -/
def format_cnpj (digits : List Char) : List Char :=
  sliceL digits 0 2 ++ ['.'] ++ sliceL digits 2 5 ++ ['.'] ++ sliceL digits 5 8 ++
  ['/'] ++ sliceL digits 8 12 ++ ['-'] ++ sliceL digits 12 14

/-- `AFDParser._parse_header` (nothing in its body can raise, so the
enclosing `except Exception: pass` is dead). -/
def parse_header (st : ParserState) (line : List Char) : ParserState :=
  let cnpj_raw :=
    if st.format_detected = "controlid_iso" then stripL (sliceL line 10 24)
    else stripL (sliceL line 11 25)
  let razao :=
    if st.format_detected = "controlid_iso" then
      if line.length > 38 then stripL (sliceL line 38 188) else []
    else
      let razao0 := if line.length > 37 then stripL (sliceL line 37 187) else []
      if razao0 = [] then
        match header_name_search (line.drop 25) with
        | some g => stripL g
        | none => []
      else razao0
  let st :=
    if cnpj_raw ≠ [] then
      let digits := (cnpj_raw.filter Char.isDigit).take 14
      if digits.length = 14 then { st with company := { st.company with cnpj := format_cnpj digits } }
      else st
    else st
  if razao ≠ [] then { st with company := { st.company with name := stripL razao } }
  else st

/-- `AFDParser._parse_line`: record-type dispatch.  Types `2`, `4` and `6`
are recognized and ignored; an unknown type character falls through. -/
def parse_line (st : ParserState) (line : List Char) (_line_num : Nat) : ParserState :=
  if line.length < 10 then st
  else if starts_with_l line (String.toList "999999999") then st
  else if contains_sub line ['=', '='] ∧ line.length < 120 then st
  else
    let nsr := stripL (sliceL line 0 9)
    let record_type := line.getD 9 ' '
    if record_type = '1' then parse_header st line
    else if record_type = '3' then parse_punch st line nsr
    else if record_type = '5' then parse_employee st line nsr
    else st

/-- The `REP_C`/`REP-C` test `_detect_format` applies to the first line. -/
def repc_check (lines : List (List Char)) : Bool :=
  match lines with
  | [] => false
  | first :: _ =>
      let fl := upperL (stripL first)
      contains_sub fl (String.toList "REP_C") || contains_sub fl (String.toList "REP-C")

/-- The scanning loop of `_detect_format`: the first stripped line of length
at least 20 whose character at offset 9 is `'3'` decides the format (the
source's two non-ISO sub-branches both select `"portaria671"`). -/
def detect_scan : List (List Char) → Option String
  | [] => none
  | l :: restl =>
      let line := stripL l
      if line.length < 20 then detect_scan restl
      else if line.getD 9 ' ' = '3' then
        some (if iso_match (sliceL line 10 35) then "controlid_iso" else "portaria671")
      else detect_scan restl

/-- `AFDParser._detect_format`. -/
def detect_format (st : ParserState) (lines : List (List Char)) : ParserState :=
  if repc_check lines then { st with format_detected := "portaria671" }
  else
    match detect_scan lines with
    | some f => { st with format_detected := f }
    | none => { st with format_detected := "portaria671" }

/-- `AFDParser.parse_file`, over the decoded line list (the encoding-cascade
file read is the caller's concern here).  Lines 51–57 of the source reassign
every instance attribute, so the incoming state is fully discarded.  Within
the loop no exception escapes `_parse_line` (both fallible decoders catch
their own), so `parsed_lines` counts every nonempty stripped line. -/
def parse_file (st : ParserState) (content : List (List Char)) : ParserState :=
  let st := init_state
  let st := { st with total_lines := content.length }
  let st := detect_format st content
  let st := (content.enum).foldl (fun acc il =>
    let line := stripL il.2
    if line = [] then acc
    else
      let acc := parse_line acc line (il.1 + 1)
      { acc with parsed_lines := acc.parsed_lines + 1 }) st
  { st with punches := sort_punches st.punches }

/-! ### Concrete inputs used by counterexamples and witnesses -/

/-- A punch with the given timestamp and empty identifiers. -/
def mk_punch (y m d h mi : Nat) : Punch := { datetime := ⟨y, m, d, h, mi⟩ }

/-- The default configuration switched to the Standard variant. -/
def std_schedule : ScheduleConfig := { schedule_type := ScheduleType.standard }

/-- 2024-01-07, a Sunday. -/
def sunday_date : PDate := ⟨2024, 1, 7⟩

/-- 2024-01-01, a Monday. -/
def monday_date : PDate := ⟨2024, 1, 1⟩

/-- Two punches 08:00 and 18:30 on the Sunday. -/
def sunday_two_punches : List Punch :=
  [mk_punch 2024 1 7 8 0, mk_punch 2024 1 7 18 30]

/-- Four punches 08:00, 12:00, 13:00, 18:00 on the Sunday. -/
def sunday_four_punches : List Punch :=
  [mk_punch 2024 1 7 8 0, mk_punch 2024 1 7 12 0,
   mk_punch 2024 1 7 13 0, mk_punch 2024 1 7 18 0]

/-- Six punches on the Monday, with a 30-minute gap between the 2nd and 3rd. -/
def monday_six_punches : List Punch :=
  [mk_punch 2024 1 1 8 0, mk_punch 2024 1 1 10 0, mk_punch 2024 1 1 10 30,
   mk_punch 2024 1 1 12 0, mk_punch 2024 1 1 13 0, mk_punch 2024 1 1 17 0]

/-- Two punches 08:00 and 20:00 on the Monday (12 worked hours). -/
def monday_overtime_punches : List Punch :=
  [mk_punch 2024 1 1 8 0, mk_punch 2024 1 1 20 0]

/-- The NSR field of the sample lines. -/
def nsr_one : List Char := String.toList "000000001"

/-- A fixed-offset punch line whose date is 30/02/2024 (February the 30th). -/
def line_feb30 : List Char := String.toList "0000000013300220240800123456789012"

/-- A fixed-offset punch line whose day field is 40. -/
def line_day40 : List Char := String.toList "0000000013400120240800123456789012"

/-- A fixed-offset punch line dated 01/01/1999 (year below 2000). -/
def line_year1999 : List Char := String.toList "0000000013010119990800123456789012"

/-- A punch line in the ISO layout. -/
def iso_punch_line : List Char :=
  String.toList "00000000132024-01-15T08:00:00-0300123456789012"

/-- A short first line containing the `REP-C` marker. -/
def repc_header_line : List Char := String.toList "REP-C"

/-! ### Helper lemmas -/

/-- With fewer than 4 punches the break computation returns 0. -/
theorem calc_break_minutes_of_short (ps : List Punch) (h : ps.length < 4) :
    calc_break_minutes ps = 0 := by
  match ps with
  | [] => rfl
  | [_] => rfl
  | [_, _] => rfl
  | [_, _, _] => rfl
  | _ :: _ :: _ :: _ :: _ => simp at h; omega

/-- `pymin` is bounded by its second argument. -/
theorem pymin_le_right (a b : ℚ) : pymin a b ≤ b := by
  unfold pymin
  split_ifs with h
  · exact le_rfl
  · exact le_of_not_lt h

/-- The shared validation tail of `_parse_punch` leaves the parser state
untouched when the identifier is empty or one of the numeric fields is
outside the coded ranges. -/
theorem punch_validate_skip (st : ParserState) (nsr : List Char)
    (year month day hour minute : Int) (pis : List Char)
    (h : pis = [] ∨
      ¬ (1 ≤ day ∧ day ≤ 31 ∧ 1 ≤ month ∧ month ≤ 12 ∧ 2000 ≤ year ∧ year ≤ 2100) ∨
      ¬ (0 ≤ hour ∧ hour ≤ 23 ∧ 0 ≤ minute ∧ minute ≤ 59)) :
    punch_validate st nsr year month day hour minute pis = st := by
  unfold punch_validate
  rcases h with h | h | h
  · rw [if_pos h]
  · by_cases hp : pis = []
    · rw [if_pos hp]
    · rw [if_neg hp, if_pos h]
  · by_cases hp : pis = []
    · rw [if_pos hp]
    · rw [if_neg hp]
      by_cases h2 : 1 ≤ day ∧ day ≤ 31 ∧ 1 ≤ month ∧ month ≤ 12 ∧ 2000 ≤ year ∧ year ≤ 2100
      · rw [if_neg (not_not_intro h2), if_pos h]
      · rw [if_pos h2]

/-- The scanning loop of `_detect_format` stops at the first candidate punch
line (stripped length at least 20, `'3'` at offset 9) and decides the format
from its ISO match. -/
theorem detect_scan_first (pre : List (List Char)) (l : List Char) (post : List (List Char))
    (hpre : ∀ l' ∈ pre, (stripL l').length < 20 ∨ ¬ (stripL l').getD 9 ' ' = '3')
    (hlen : 20 ≤ (stripL l).length) (hty : (stripL l).getD 9 ' ' = '3') :
    detect_scan (pre ++ l :: post) =
      some (if iso_match (sliceL (stripL l) 10 35) then "controlid_iso" else "portaria671") := by
  induction pre with
  | nil =>
      simp only [List.nil_append, detect_scan]
      rw [if_neg (by omega), if_pos hty]
  | cons hd tl ih =>
      have h := hpre hd (by simp)
      simp only [List.cons_append, detect_scan]
      rcases h with h | h
      · rw [if_pos h]
        exact ih (fun l' hl' => hpre l' (by simp [hl']))
      · by_cases hl : (stripL hd).length < 20
        · rw [if_pos hl]
          exact ih (fun l' hl' => hpre l' (by simp [hl']))
        · rw [if_neg hl, if_neg h]
          exact ih (fun l' hl' => hpre l' (by simp [hl']))

/-! ### Claim theorems -/

/-- C7: the Source File Parser is deterministic — parsing the same file
contents from any two prior parser states yields identical results
(`parse_file` reassigns every instance attribute before processing, so no
state leaks between runs; in particular the punch lists and employee maps of
the two results coincide). -/
theorem parse_file_deterministic (st1 st2 : ParserState) (content : List (List Char)) :
    parse_file st1 content = parse_file st2 content := rfl

/-- C8: for every weekday and every schedule configuration, the Six-by-One
variant behaves exactly like the Standard variant in both classifier
functions, and both follow the Monday–Friday `daily_hours` (defaulting to 8
when configured as 0), Saturday `saturday_hours`, Sunday 0 pattern. -/
theorem six_by_one_matches_standard (weekday : Nat) (s : ScheduleConfig) :
    is_workday weekday { s with schedule_type := ScheduleType.sixByOne } =
      is_workday weekday { s with schedule_type := ScheduleType.standard } ∧
    expected_hours weekday { s with schedule_type := ScheduleType.sixByOne } =
      expected_hours weekday { s with schedule_type := ScheduleType.standard } ∧
    is_workday weekday { s with schedule_type := ScheduleType.sixByOne } =
      decide (weekday ≤ 5) ∧
    expected_hours weekday { s with schedule_type := ScheduleType.sixByOne } =
      (if weekday ≤ 4 then (if s.daily_hours ≠ 0 then s.daily_hours else 8)
       else if weekday = 5 then s.saturday_hours else 0) :=
  ⟨rfl, rfl, rfl, rfl⟩

/-- C6: `process_employee` produces exactly one `WorkDay` per calendar day
of the target month, including days with no punches. -/
theorem process_employee_one_day_per_calendar_day
    (calc_default : ScheduleConfig) (employee : Employee) (punches : List Punch)
    (month year : Nat) (h1 : 1 ≤ month) (h2 : month ≤ 12) :
    (process_employee calc_default employee punches month year).workdays.length =
      monthLength year month := by
  simp [process_employee]

/-- Witness for C6 at February 2024 (a 29-day month). -/
theorem process_employee_one_day_per_calendar_day_witness :
    (1 ≤ 2 ∧ 2 ≤ 12) ∧
    (process_employee default_schedule {} [] 2 2024).workdays.length = monthLength 2024 2 :=
  ⟨by decide,
   process_employee_one_day_per_calendar_day default_schedule {} [] 2 2024
     (by decide) (by decide)⟩

/-- Counterexample to C1: on a Sunday under the Standard schedule (a
non-workday) with punches 08:00 and 18:30, the calculator assigns
`overtime_hours = 10.5`, strictly above `max_daily_overtime_hours = 2`:
the cap is not enforced on non-workdays. -/
theorem overtime_cap_counterexample :
    is_workday (date_weekday sunday_date) std_schedule = false ∧
    (calculate_workday sunday_date sunday_two_punches std_schedule).overtime_hours = 21/2 ∧
    std_schedule.max_daily_overtime_hours = 2 ∧
    ¬ ((calculate_workday sunday_date sunday_two_punches std_schedule).overtime_hours ≤
        std_schedule.max_daily_overtime_hours) := by decide

/-- Counterexample to C2: a workday with 6 punches (not exactly 4) still
gets a nonzero `break_minutes` (the gap between the 2nd and 3rd punch),
because the source computes it for any count of at least 4. -/
theorem break_minutes_counterexample :
    monday_six_punches.length = 6 ∧
    (calculate_workday monday_date monday_six_punches default_schedule).break_minutes = 30 := by
  decide

/-- Counterexample to C3: a type-3 line dated 30/02/2024 passes the
individual field-range checks but names no calendar date, so the
`datetime` constructor raises and the record decoder appends an entry to
the error log — the claim says no entry is appended for such lines. -/
theorem punch_reject_counterexample :
    monthLength 2024 2 < 30 ∧
    (parse_punch init_state line_feb30 nsr_one).punches = [] ∧
    (parse_punch init_state line_feb30 nsr_one).employees = [] ∧
    (parse_punch init_state line_feb30 nsr_one).errors = [punch_error_msg nsr_one] := by
  decide

/-- Counterexample to C4: when the first line of the file contains the
`REP-C` marker, the detector returns `"portaria671"` even though the first
type-3 punch record carries an ISO timestamp immediately after the type
marker (the claim requires `"controlid_iso"` for every such file). -/
theorem detect_format_counterexample :
    (stripL repc_header_line).length < 20 ∧
    20 ≤ (stripL iso_punch_line).length ∧
    (stripL iso_punch_line).getD 9 ' ' = '3' ∧
    iso_match (sliceL (stripL iso_punch_line) 10 35) = true ∧
    (detect_format init_state [repc_header_line, iso_punch_line]).format_detected =
      "portaria671" := by decide

set_option maxHeartbeats 3200000 in
/-- C5: overtime and deficit are never both positive for the same day — in
fact, every `WorkDay` produced by the calculator has `deficit_hours = 0` or
`overtime_hours = 0`, under any date, punch list and schedule. -/
theorem overtime_deficit_never_both (d : PDate) (ps : List Punch) (s : ScheduleConfig) :
    (calculate_workday d ps s).deficit_hours = 0 ∨ (calculate_workday d ps s).overtime_hours = 0 := by
  cases ps with
  | nil =>
      simp only [calculate_workday]
      split <;> simp
  | cons p rest =>
      simp only [calculate_workday, apply_ite WorkDay.deficit_hours,
        apply_ite WorkDay.overtime_hours, apply_ite WorkDay.observation,
        apply_ite WorkDay.break_minutes, ite_self]
      split_ifs <;> simp

set_option maxHeartbeats 3200000 in
/-- C10: on a non-workday with at least one punch, the calculator never
computes a break, lateness or deficit: `break_minutes = 0`,
`is_late = false`, `late_minutes = 0` and `deficit_hours = 0`, whatever the
punch count and times. -/
theorem nonworkday_no_lateness_no_deficit (d : PDate) (ps : List Punch) (s : ScheduleConfig)
    (hw : is_workday (date_weekday d) s = false) (hne : ps ≠ []) :
    (calculate_workday d ps s).break_minutes = 0 ∧
    (calculate_workday d ps s).is_late = false ∧
    (calculate_workday d ps s).late_minutes = 0 ∧
    (calculate_workday d ps s).deficit_hours = 0 := by
  cases ps with
  | nil => cases hne rfl
  | cons p rest =>
      simp only [calculate_workday, hw, apply_ite WorkDay.break_minutes,
        apply_ite WorkDay.is_late, apply_ite WorkDay.late_minutes,
        apply_ite WorkDay.deficit_hours, apply_ite WorkDay.observation, ite_self]
      split_ifs <;> simp_all

/-- Witness for C10: Sunday under the Standard schedule with four punches. -/
theorem nonworkday_no_lateness_no_deficit_witness :
    (is_workday (date_weekday sunday_date) std_schedule = false ∧
      sunday_four_punches ≠ []) ∧
    ((calculate_workday sunday_date sunday_four_punches std_schedule).break_minutes = 0 ∧
     (calculate_workday sunday_date sunday_four_punches std_schedule).is_late = false ∧
     (calculate_workday sunday_date sunday_four_punches std_schedule).late_minutes = 0 ∧
     (calculate_workday sunday_date sunday_four_punches std_schedule).deficit_hours = 0) :=
  ⟨⟨by decide, by decide⟩,
   nonworkday_no_lateness_no_deficit sunday_date sunday_four_punches std_schedule
     (by decide) (by decide)⟩

set_option maxHeartbeats 3200000 in
/-- C2 (amended): `break_minutes` is the clamped 2nd→3rd punch gap whenever
the day is a workday with at least 4 punches (not only exactly 4); it is 0
on non-workdays and with fewer than 4 punches. -/
theorem break_minutes_iff_four_or_more (d : PDate) (ps : List Punch) (s : ScheduleConfig) :
    (calculate_workday d ps s).break_minutes =
      if is_workday (date_weekday d) s = true ∧ 4 ≤ ps.length then calc_break_minutes ps
      else 0 := by
  cases ps with
  | nil =>
      simp only [calculate_workday]
      split <;> simp
  | cons p rest =>
      by_cases hw : is_workday (date_weekday d) s
      · simp only [calculate_workday, hw, apply_ite WorkDay.break_minutes,
          apply_ite WorkDay.observation, ite_self]
        split_ifs <;>
          first
            | rfl
            | (exact (calc_break_minutes_of_short _ (by simp only [List.length_cons]; omega)).symm)
            | (exact calc_break_minutes_of_short _ (by simp only [List.length_cons]; omega))
            | (simp_all <;>
                first
                  | rfl
                  | omega
                  | (exact calc_break_minutes_of_short _ (by simp only [List.length_cons]; omega)))
      · rw [Bool.not_eq_true] at hw
        simp only [calculate_workday, hw, apply_ite WorkDay.break_minutes,
          apply_ite WorkDay.observation, ite_self]
        split_ifs <;> simp_all

set_option maxHeartbeats 3200000 in
/-- C1 (amended): on workdays (with a nonnegative configured cap) the
computed overtime never exceeds `max_daily_overtime_hours`, and whenever at
least two punches yield a raw excess above the cap, the observation records
the exceeded limit — unless the later insufficient-break check overwrites
it, which the last hypothesis excludes.  (On non-workdays the source
assigns all worked hours to overtime without applying the cap.) -/
theorem overtime_capped_on_workdays (d : PDate) (ps : List Punch) (s : ScheduleConfig)
    (hcap : 0 ≤ s.max_daily_overtime_hours)
    (hw : is_workday (date_weekday d) s = true) :
    (calculate_workday d ps s).overtime_hours ≤ s.max_daily_overtime_hours ∧
    (2 ≤ ps.length →
      calc_worked_hours ps s > expected_hours (date_weekday d) s + (s.tolerance_minutes : ℚ) / 60 →
      calc_worked_hours ps s - expected_hours (date_weekday d) s > s.max_daily_overtime_hours →
      ¬ (expected_hours (date_weekday d) s > 6 ∧ 0 < calc_break_minutes ps ∧
          calc_break_minutes ps < 60) →
      (calculate_workday d ps s).observation = obs_excess s) := by
  cases ps with
  | nil =>
      refine ⟨?_, ?_⟩
      · simp only [calculate_workday, hw, apply_ite WorkDay.overtime_hours, ite_self]
        exact hcap
      · intro h2
        simp at h2
  | cons p rest =>
      refine ⟨?_, ?_⟩
      · simp only [calculate_workday, hw, apply_ite WorkDay.overtime_hours,
          apply_ite WorkDay.observation, apply_ite WorkDay.break_minutes, ite_self]
        split_ifs <;>
          first
            | exact hcap
            | simpa using hcap
            | exact pymin_le_right _ _
            | simp_all
      · intro hlen h6 h6b h8
        simp only [calculate_workday, hw, apply_ite WorkDay.observation,
          apply_ite WorkDay.break_minutes, apply_ite WorkDay.overtime_hours, ite_self]
        split_ifs <;>
          first
            | rfl
            | omega
            | simp_all

/-- Witness for C1 (amended): Monday under the default 6x1 schedule with
punches 08:00 and 20:00 — raw excess 4h is above the 2h cap, overtime is
capped and the observation records the exceeded limit. -/
theorem overtime_capped_on_workdays_witness :
    (0 ≤ default_schedule.max_daily_overtime_hours ∧
     is_workday (date_weekday monday_date) default_schedule = true ∧
     2 ≤ monday_overtime_punches.length ∧
     calc_worked_hours monday_overtime_punches default_schedule >
       expected_hours (date_weekday monday_date) default_schedule +
         (default_schedule.tolerance_minutes : ℚ) / 60 ∧
     calc_worked_hours monday_overtime_punches default_schedule -
       expected_hours (date_weekday monday_date) default_schedule >
         default_schedule.max_daily_overtime_hours ∧
     ¬ (expected_hours (date_weekday monday_date) default_schedule > 6 ∧
        0 < calc_break_minutes monday_overtime_punches ∧
        calc_break_minutes monday_overtime_punches < 60)) ∧
    ((calculate_workday monday_date monday_overtime_punches default_schedule).overtime_hours ≤
       default_schedule.max_daily_overtime_hours ∧
     (calculate_workday monday_date monday_overtime_punches default_schedule).observation =
       obs_excess default_schedule) :=
  ⟨⟨by decide, by decide, by decide, by decide, by decide, by decide⟩,
   (overtime_capped_on_workdays monday_date monday_overtime_punches default_schedule
      (by decide) (by decide)).1,
   (overtime_capped_on_workdays monday_date monday_overtime_punches default_schedule
      (by decide) (by decide)).2 (by decide) (by decide) (by decide) (by decide)⟩

/-- C3 (amended): a type-3 line of the fixed-offset layout whose numeric
fields decode but fall outside the coded ranges (day 1–31, month 1–12,
year 2000–2100, hour 0–23, minute 0–59), or whose identifier is empty, is
skipped with no punch added and no error logged.  (Dates passing these
individual checks but invalid on the calendar — such as February the
30th — are instead skipped with an error logged, per the counterexample.) -/
theorem punch_out_of_range_skipped_silently (st : ParserState) (line nsr : List Char)
    (day month year hour minute : Int)
    (hfmt : st.format_detected ≠ "controlid_iso")
    (hd : toIntPy (sliceL (sliceL line 10 18) 0 2) = some day)
    (hm : toIntPy (sliceL (sliceL line 10 18) 2 4) = some month)
    (hy : toIntPy (sliceL (sliceL line 10 18) 4 8) = some year)
    (hh : toIntPy (sliceL (sliceL line 18 22) 0 2) = some hour)
    (hmi : toIntPy (sliceL (sliceL line 18 22) 2 4) = some minute)
    (hout : stripL (sliceL line 22 34) = [] ∨
      ¬ (1 ≤ day ∧ day ≤ 31 ∧ 1 ≤ month ∧ month ≤ 12 ∧ 2000 ≤ year ∧ year ≤ 2100) ∨
      ¬ (0 ≤ hour ∧ hour ≤ 23 ∧ 0 ≤ minute ∧ minute ≤ 59)) :
    parse_punch st line nsr = st := by
  have hv := punch_validate_skip st nsr year month day hour minute
    (stripL (sliceL line 22 34)) hout
  simp only [parse_punch, if_neg hfmt, hd, hm, hy, hh, hmi]
  exact hv

/-- Witness for C3 (amended): the line with day field 40 is dropped with the
state left untouched. -/
theorem punch_out_of_range_skipped_silently_witness :
    (init_state.format_detected ≠ "controlid_iso" ∧
     toIntPy (sliceL (sliceL line_day40 10 18) 0 2) = some 40 ∧
     ¬ (1 ≤ (40 : Int) ∧ (40 : Int) ≤ 31 ∧ 1 ≤ (1 : Int) ∧ (1 : Int) ≤ 12 ∧
        2000 ≤ (2024 : Int) ∧ (2024 : Int) ≤ 2100)) ∧
    parse_punch init_state line_day40 nsr_one = init_state :=
  ⟨⟨by decide, by decide, by decide⟩,
   punch_out_of_range_skipped_silently init_state line_day40 nsr_one 40 1 2024 8 0
     (by decide) (by decide) (by decide) (by decide) (by decide) (by decide)
     (Or.inr (Or.inl (by decide)))⟩

/-- C9: a type-3 punch line whose fields are individually in range but whose
year is below 2000 or above 2100 is silently dropped: no punch, no employee,
no error-log entry (the parser state is unchanged). -/
theorem year_window_skipped_silently (st : ParserState) (line nsr : List Char)
    (day month year hour minute : Int)
    (hfmt : st.format_detected ≠ "controlid_iso")
    (hd : toIntPy (sliceL (sliceL line 10 18) 0 2) = some day)
    (hm : toIntPy (sliceL (sliceL line 10 18) 2 4) = some month)
    (hy : toIntPy (sliceL (sliceL line 10 18) 4 8) = some year)
    (hh : toIntPy (sliceL (sliceL line 18 22) 0 2) = some hour)
    (hmi : toIntPy (sliceL (sliceL line 18 22) 2 4) = some minute)
    (hdok : 1 ≤ day ∧ day ≤ 31) (hmok : 1 ≤ month ∧ month ≤ 12)
    (hhok : 0 ≤ hour ∧ hour ≤ 23) (hmiok : 0 ≤ minute ∧ minute ≤ 59)
    (hyout : year < 2000 ∨ 2100 < year) :
    parse_punch st line nsr = st := by
  have hv := punch_validate_skip st nsr year month day hour minute
    (stripL (sliceL line 22 34)) (Or.inr (Or.inl (by omega)))
  simp only [parse_punch, if_neg hfmt, hd, hm, hy, hh, hmi]
  exact hv

/-- Witness for C9: the line dated 01/01/1999 is dropped with the state left
untouched. -/
theorem year_window_skipped_silently_witness :
    (init_state.format_detected ≠ "controlid_iso" ∧
     toIntPy (sliceL (sliceL line_year1999 10 18) 4 8) = some 1999 ∧
     ((1999 : Int) < 2000 ∨ (2100 : Int) < 1999)) ∧
    parse_punch init_state line_year1999 nsr_one = init_state :=
  ⟨⟨by decide, by decide, Or.inl (by decide)⟩,
   year_window_skipped_silently init_state line_year1999 nsr_one 1 1 1999 8 0
     (by decide) (by decide) (by decide) (by decide) (by decide) (by decide)
     (by decide) (by decide) (by decide) (by decide) (Or.inl (by decide))⟩

/-- C4 (amended): provided the first line does not carry the `REP_C`/`REP-C`
marker, the detector decides from the first candidate punch line (stripped
length at least 20 with `'3'` at offset 9): an ISO timestamp after the
marker yields `"controlid_iso"`, anything else — in particular an 8-digit
date — yields `"portaria671"`. -/
theorem detect_format_first_punch_decides (st : ParserState)
    (pre : List (List Char)) (l : List Char) (post : List (List Char))
    (hrep : repc_check (pre ++ l :: post) = false)
    (hpre : ∀ l' ∈ pre, (stripL l').length < 20 ∨ ¬ (stripL l').getD 9 ' ' = '3')
    (hlen : 20 ≤ (stripL l).length) (hty : (stripL l).getD 9 ' ' = '3') :
    (detect_format st (pre ++ l :: post)).format_detected =
      if iso_match (sliceL (stripL l) 10 35) then "controlid_iso" else "portaria671" := by
  unfold detect_format
  rw [if_neg (by simp [hrep])]
  rw [detect_scan_first pre l post hpre hlen hty]

/-- Witness for C4 (amended): a file whose only line is the ISO punch line
is detected as `"controlid_iso"`. -/
theorem detect_format_first_punch_decides_witness :
    (repc_check ([] ++ iso_punch_line :: []) = false ∧
     20 ≤ (stripL iso_punch_line).length ∧
     (stripL iso_punch_line).getD 9 ' ' = '3') ∧
    (detect_format init_state ([] ++ iso_punch_line :: [])).format_detected =
      "controlid_iso" :=
  ⟨⟨by decide, by decide, by decide⟩,
   (detect_format_first_punch_decides init_state [] iso_punch_line []
      (by decide) (by simp) (by decide) (by decide)).trans (by decide)⟩
